import Mathlib

/-! Verification of the SUNA-ALSHAM metrics and validation core.

Shallow embedding of `backend/agent/alsham/validation_system.py` and
`backend/agent/alsham/metrics_system.py`.

Conventions of the embedding:
* Python floats are modelled as rationals (`ℚ`).
* A Python value stored in an improvement dict is either a number or `None`
  (`PyVal.pyNone`); arithmetic or comparison with `None` raises `TypeError`.
* An argument that is not a dict at all (`ImprovementInput.notDict`) makes
  every `.get` raise `AttributeError`.
* Exceptions are modelled with `Except String`; a `try/except` block is a
  `match` on the outcome of the body.
* `statistics.stdev` returns a square root, which is irrational; every use of
  the standard deviation in the source occurs inside a comparison between
  non-negative quantities, so the embedding carries the sample variance
  (`stdev²`) and compares squares, which is equivalent.
* Database-derived inputs (`_get_performance_history`,
  `_get_recent_improvements`, `_analyze_improvement_pattern`) are environment
  data and enter as parameters (`ValidationCtx`).
-/

namespace SunaAlsham

/-- Mean of a list of rationals, `statistics.mean` (0 on the empty list,
which the source never hits on an empty list in the paths embedded here). -/
def listMean (l : List ℚ) : ℚ := l.sum / l.length

/-- Sample variance (square of `statistics.stdev`):
`Σ (x - mean)² / (n - 1)`. -/
def sampleVar (l : List ℚ) : ℚ :=
  let m := listMean l
  (l.map (fun x => (x - m) ^ 2)).sum / ((l.length : ℚ) - 1)

/-- A value held under a key of the improvement dict: a number, or `None`
(any non-numeric value, which raises `TypeError` when compared with or
subtracted from a float). -/
inductive PyVal where
  | num (q : ℚ)
  | pyNone
deriving DecidableEq

/-- The fields of the improvement dict read by the validators, as returned by
`improvement_data.get(key, 0.0)` (an absent key yields `num 0`). -/
structure ImpDict where
  old_performance : PyVal
  new_performance : PyVal
  improvement_percentage : PyVal
deriving DecidableEq

/-- The `improvement_data` argument: a dict, or a non-dict object on which
`.get` raises `AttributeError`. -/
inductive ImprovementInput where
  | notDict
  | dict (d : ImpDict)
deriving DecidableEq

/-- Embeds `improvement_data.get(...)`: raises `AttributeError` on a non-dict. -/
def pyGet (inp : ImprovementInput) (f : ImpDict → PyVal) : Except String PyVal :=
  match inp with
  | .notDict => .error "AttributeError"
  | .dict d => .ok (f d)

/-- Using a stored value as a number (comparison or arithmetic with a float):
raises `TypeError` on `None`. -/
def asNum (v : PyVal) : Except String ℚ :=
  match v with
  | .num q => .ok q
  | .pyNone => .error "TypeError"

/-- Scientific configuration read in `ValidationSystem.__init__`. -/
structure ValidationConfig where
  min_improvement_percentage : ℚ
  significance_level : ℚ
  min_sample_size : ℕ
  reproducibility_threshold : ℚ
deriving DecidableEq

/-- The defaults of `ValidationSystem.__init__`: 20.0, 0.05, 5, 0.8. -/
def defaultValidationConfig : ValidationConfig := ⟨20, 1 / 20, 5, 4 / 5⟩

/-- Result dict of `_validate_statistical_significance` (the evidence fields
not referenced by any claim — t statistic, historical mean, … — are
projected away; `passed`, the insufficient-sample `reason`, `sample_size`
and the caught-exception `error` key are kept). -/
structure StatResult where
  passed : Bool
  reason : Option String
  sample_size : Option ℕ
  error : Option String
deriving DecidableEq

/-- Result dict of the other four validators, projected to the `passed` flag
and the caught-exception `error` key. -/
structure CriterionResult where
  passed : Bool
  error : Option String
deriving DecidableEq

/-- Embeds `_validate_statistical_significance`.  Below `min_sample_size` it returns
the insufficient-sample failure before touching the improvement data.
Otherwise the body may raise (`AttributeError` on a non-dict,
`TypeError` on a `None` new_performance, `ZeroDivisionError` when the
historical standard deviation is zero), and every exception is caught and
turned into a failed result.  `|t| > c` is carried as `t² > c²` (historical
variance `v` stands for `stdev²`; the `0.1` stdev fallback for a length-1
history becomes `(1/10)²`). -/
def statisticalSignificance (cfg : ValidationConfig) (history : List ℚ)
    (inp : ImprovementInput) : StatResult :=
  if history.length < cfg.min_sample_size then
    { passed := false
      reason := some ("Amostra insuficiente: " ++ toString history.length ++
        " < " ++ toString cfg.min_sample_size)
      sample_size := some history.length
      error := none }
  else
    match inp with
    | .notDict =>
      { passed := false, reason := none, sample_size := none
        error := some "AttributeError" }
    | .dict d =>
      match d.new_performance with
      | .pyNone =>
        { passed := false, reason := none, sample_size := none
          error := some "TypeError" }
      | .num nw =>
        let m := listMean history
        let v := if 1 < history.length then sampleVar history else (1 / 10) ^ 2
        if v = 0 then
          { passed := false, reason := none, sample_size := none
            error := some "ZeroDivisionError" }
        else
          let t2 := (nw - m) ^ 2 * history.length / v
          let df := history.length - 1
          let crit : ℚ := if 30 < df then 2 else 5 / 2
          let isSig := decide (crit ^ 2 < t2)
          let p : ℚ := if 9 < t2 then 1 / 100 else if 4 < t2 then 1 / 20 else 1 / 10
          { passed := isSig && decide (p < cfg.significance_level)
            reason := none
            sample_size := some history.length
            error := none }

/-- Embeds `_validate_practical_significance`: no `try/except`, so a `TypeError` or
`AttributeError` propagates to the caller (`Except.error`).  The three
`.get` calls run first, then the comparisons in source order. -/
def practicalSignificance (cfg : ValidationConfig) (inp : ImprovementInput) :
    Except String CriterionResult := do
  let pct ← pyGet inp ImpDict.improvement_percentage
  let old ← pyGet inp ImpDict.old_performance
  let nw ← pyGet inp ImpDict.new_performance
  let pq ← asNum pct
  let meets := decide (cfg.min_improvement_percentage ≤ pq)
  let nq ← asNum nw
  let oq ← asNum old
  let positive := decide (oq < nq)
  let meaningful := decide ((1 / 20 : ℚ) ≤ |nq - oq|)
  pure { passed := meets && positive && meaningful, error := none }

/-- Body of `_validate_reproducibility` after the `len < 2` guard:
fetches the current percentage (may raise), appends it to the recent ones,
and tests `cv = stdev/mean < 0.5` with `cv = inf` when `mean ≤ 0`
(carried as `0 < mean ∧ var < (mean/2)²`). -/
def reproducibilityBody (recent : List ℚ) (inp : ImprovementInput) :
    Except String CriterionResult := do
  let cur ← pyGet inp ImpDict.improvement_percentage
  let cq ← asNum cur
  let all := recent ++ [cq]
  let m := listMean all
  let v := if 1 < all.length then sampleVar all else 0
  let isRepro := decide (0 < m) && decide (v < (m / 2) ^ 2)
  pure { passed := isRepro, error := none }

/-- Embeds `_validate_reproducibility`: passes outright with fewer than two recent
improvements; otherwise runs the body with every exception caught into a
failed result. -/
def reproducibilityCheck (recent : List ℚ) (inp : ImprovementInput) :
    CriterionResult :=
  if recent.length < 2 then { passed := true, error := none }
  else
    match reproducibilityBody recent inp with
    | .ok r => r
    | .error e => { passed := false, error := some e }

/-- Trend label produced by `_analyze_improvement_pattern`. -/
inductive Trend where
  | improving
  | declining
  | stable
deriving DecidableEq

/-- The improvement pattern dict handed to `_validate_consistency`
(environment data, computed from the database by
`_analyze_improvement_pattern`). -/
structure ImprovementPattern where
  lo : ℚ
  hi : ℚ
  recent_average : ℚ
  trend : Trend
deriving DecidableEq

/-- Body of the `try` block of `_validate_consistency`: the current percentage is
fetched before the no-pattern check (so a non-dict raises first); with a
pattern present, the chained range comparison raises `TypeError` on a
`None` percentage. -/
def consistencyBody (pat : Option ImprovementPattern) (inp : ImprovementInput) :
    Except String CriterionResult := do
  let cur ← pyGet inp ImpDict.improvement_percentage
  match pat with
  | none => pure { passed := true, error := none }
  | some p => do
    let c ← asNum cur
    let within := decide (p.lo ≤ c) && decide (c ≤ p.hi)
    let trendOk :=
      match p.trend with
      | .improving => decide (¬ c < p.recent_average)
      | .declining => decide (¬ p.recent_average < c)
      | .stable => true
    pure { passed := within && trendOk, error := none }

/-- Embeds `_validate_consistency`: any exception in the body is caught and the
criterion is returned as PASSED (`passed: True` in the handler —
"Falha na validação não deve bloquear"). -/
def consistencyCheck (pat : Option ImprovementPattern) (inp : ImprovementInput) :
    CriterionResult :=
  match consistencyBody pat inp with
  | .ok r => r
  | .error e => { passed := true, error := some e }

/-- Embeds `_validate_bounds`: no `try/except`, so a `TypeError` propagates; the
three bound checks run in source order with the Python short-circuiting of
chained comparisons and `and`. -/
def boundsCheck (inp : ImprovementInput) : Except String CriterionResult := do
  let old ← pyGet inp ImpDict.old_performance
  let nw ← pyGet inp ImpDict.new_performance
  let pct ← pyGet inp ImpDict.improvement_percentage
  let pib ← do
    let oq ← asNum old
    if 0 ≤ oq ∧ oq ≤ 1 then do
      let nq ← asNum nw
      pure (decide (0 ≤ nq ∧ nq ≤ 1))
    else
      pure false
  let ir ← do
    let pq ← asNum pct
    pure (decide ((-100 : ℚ) ≤ pq ∧ pq ≤ 1000))
  let nnp ← do
    let oq ← asNum old
    if 0 ≤ oq then do
      let nq ← asNum nw
      pure (decide (0 ≤ nq))
    else
      pure false
  pure { passed := pib && ir && nnp, error := none }

/-- The five consolidated `validation_results`. -/
structure CriteriaResults where
  statistical : StatResult
  practical : CriterionResult
  reproducibility : CriterionResult
  consistency : CriterionResult
  bounds : CriterionResult
deriving DecidableEq

/-- Environment of one validation request: the performance history of the subject
(30 days), recent improvement percentages (7 days) and the analyzed
improvement pattern, all read from the database by the private getters. -/
structure ValidationCtx where
  history : List ℚ
  recent : List ℚ
  pattern : Option ImprovementPattern
deriving DecidableEq

/-- The body of the `try` block of `validate_improvement`: the five validators in
source order.  `statistical`, `reproducibility` and `consistency` catch
their own exceptions; `practical` and `bounds` may abort the block. -/
def runCriteria (cfg : ValidationConfig) (ctx : ValidationCtx)
    (inp : ImprovementInput) : Except String CriteriaResults := do
  let s := statisticalSignificance cfg ctx.history inp
  let p ← practicalSignificance cfg inp
  let r := reproducibilityCheck ctx.recent inp
  let c := consistencyCheck ctx.pattern inp
  let b ← boundsCheck inp
  pure ⟨s, p, r, c, b⟩

/-- Embeds `all(result.get("passed", False) for result in validation_results.values())`. -/
def allCriteriaPassed (r : CriteriaResults) : Bool :=
  r.statistical.passed && r.practical.passed && r.reproducibility.passed &&
    r.consistency.passed && r.bounds.passed

/-- Embeds `_calculate_confidence_score`: weighted sum of binary criterion scores
over the five categories (insertion order of the results dict), divided by
the total weight. -/
def confidenceScore (r : CriteriaResults) : ℚ :=
  let pairs : List (ℚ × Bool) :=
    [(3 / 10, r.statistical.passed), (1 / 4, r.practical.passed),
     (1 / 5, r.reproducibility.passed), (3 / 20, r.consistency.passed),
     (1 / 10, r.bounds.passed)]
  let total_score := (pairs.map (fun pw => if pw.2 then pw.1 else 0)).sum
  let total_weight := (pairs.map (fun pw => pw.1)).sum
  if 0 < total_weight then total_score / total_weight else 0

/-- Embeds `_generate_recommendations`: one message per failed criterion, with the
approval message as fallback when none failed. -/
def generateRecommendations (r : CriteriaResults) : List String :=
  let l :=
    (if r.statistical.passed then [] else
      ["Aumentar tamanho da amostra para melhor significância estatística"]) ++
    (if r.practical.passed then [] else
      ["Buscar melhorias mais substanciais para significância prática"]) ++
    (if r.reproducibility.passed then [] else
      ["Melhorar consistência das melhorias para maior reprodutibilidade"]) ++
    (if r.consistency.passed then [] else
      ["Alinhar melhorias com padrão histórico do agente"]) ++
    (if r.bounds.passed then [] else
      ["Verificar cálculos - valores fora dos limites aceitáveis"])
  if l.isEmpty then ["Validação aprovada - continuar com melhorias"] else l

/-- The dict built on the normal path of `validate_improvement` (identity
fields — uuid, timestamps, the echoed input — are projected away). -/
structure NormalVerdict where
  results : CriteriaResults
  overall_passed : Bool
  confidence_score : ℚ
  recommendations : List String
deriving DecidableEq

/-- A return value of `validate_improvement`: the normal verdict dict, or the
error dict built in the `except` handler (which carries
`overall_passed: False` and the exception text). -/
inductive Verdict where
  | normal (v : NormalVerdict)
  | failure (msg : String)
deriving DecidableEq

/-- The `overall_passed` key of either verdict shape. -/
def Verdict.overall_passed : Verdict → Bool
  | .normal v => v.overall_passed
  | .failure _ => false

/-- The explanatory content of either verdict shape: the recommendations on
the normal path, the exception text on the error path. -/
def Verdict.rationale : Verdict → List String
  | .normal v => v.recommendations
  | .failure m => [m]

/-- Mutable state of the `ValidationSystem` instance touched by
`validate_improvement`: the `validation_history` list. -/
structure ValidationState where
  validation_history : List Verdict
deriving DecidableEq

/-- Embeds `validate_improvement`: runs the five criteria inside `try`; on success
consolidates the verdict and appends it to `validation_history`; on an
exception the handler returns the error dict WITHOUT touching the
history. -/
def validate_improvement (cfg : ValidationConfig) (ctx : ValidationCtx)
    (st : ValidationState) (inp : ImprovementInput) :
    Verdict × ValidationState :=
  match runCriteria cfg ctx inp with
  | .ok results =>
    let v : Verdict := .normal
      { results := results
        overall_passed := allCriteriaPassed results
        confidence_score := confidenceScore results
        recommendations := generateRecommendations results }
    (v, ⟨st.validation_history ++ [v]⟩)
  | .error e => (.failure e, st)

/-! Embedding of the metrics system (`metrics_system.py`). -/

/-- One entry of `metrics_history` built by `collect_performance_metric`
(uuid and json-encoded metadata projected away; the timestamp in seconds). -/
structure MetricSample where
  agent_id : String
  metric_type : String
  value : ℚ
  timestamp : ℕ
deriving DecidableEq

/-- Configuration read in `MetricsSystem.__init__`.
`metrics_retention_days` (default 30) is stored here and never read again by
any operation of the class. -/
structure MetricsConfig where
  metrics_retention_days : ℕ
deriving DecidableEq

/-- Default metrics configuration: 30-day retention setting. -/
def defaultMetricsConfig : MetricsConfig := ⟨30⟩

/-- Mutable state of the `MetricsSystem` instance touched by
`collect_performance_metric`: the `metrics_history` list. -/
structure MetricsState where
  metrics_history : List MetricSample
deriving DecidableEq

/-- Embeds `collect_performance_metric`: builds the metric record and appends it to
`metrics_history`, returning `True`.  No sample is ever inspected or
removed; the retention setting plays no part. -/
def collect_performance_metric (st : MetricsState) (s : MetricSample) :
    Bool × MetricsState :=
  (true, ⟨st.metrics_history ++ [s]⟩)

/-- Health status values produced by `_analyze_health_indicators`. -/
inductive Health where
  | EXCELLENT
  | GOOD
  | FAIR
  | POOR
deriving DecidableEq

/-- The slice of the consolidated metrics of one agent read by
`_analyze_health_indicators`: `performance.average_performance`,
`security.average_security_score` and `interactions.average_synergy`
(`none` models an absent key or sub-dict). -/
structure AgentMetrics where
  performance : Option ℚ
  security : Option ℚ
  synergy : Option ℚ
deriving DecidableEq

/-- Python truthiness of `dict.get(key)` guards: keep a value only when the
key is present and the value non-zero (`if perf.get("average_performance"):`
skips `0.0` along with `None`). -/
def truthyVals : List (Option ℚ) → List ℚ
  | [] => []
  | none :: t => truthyVals t
  | some q :: t => if q = 0 then truthyVals t else q :: truthyVals t

/-- The dict returned by `_analyze_health_indicators`. -/
structure HealthIndicators where
  overall_health : Health
  health_score : ℚ
  average_performance : ℚ
  average_security : ℚ
  average_collaboration : ℚ
  agents_with_metrics : ℕ
deriving DecidableEq

/-- Embeds `_analyze_health_indicators`: per-category means over the truthy values
(defaults 0.0, 1.0, 0.0 on empty), synergy normalized by 100, weighted
combination 0.4/0.4/0.2, and the `>=` breakpoint ladder.  No clamping is
applied to `health_score`. -/
def analyzeHealthIndicators (ms : List AgentMetrics) : HealthIndicators :=
  let perfs := truthyVals (ms.map AgentMetrics.performance)
  let secs := truthyVals (ms.map AgentMetrics.security)
  let collabs := (truthyVals (ms.map AgentMetrics.synergy)).map (fun q => q / 100)
  let avg_p := if perfs.isEmpty then 0 else listMean perfs
  let avg_s := if secs.isEmpty then 1 else listMean secs
  let avg_c := if collabs.isEmpty then 0 else listMean collabs
  let score := avg_p * (2 / 5) + avg_s * (2 / 5) + avg_c * (1 / 5)
  let status :=
    if 4 / 5 ≤ score then Health.EXCELLENT
    else if 3 / 5 ≤ score then Health.GOOD
    else if 2 / 5 ≤ score then Health.FAIR
    else Health.POOR
  ⟨status, score, avg_p, avg_s, avg_c, perfs.length⟩

/-! Spec-side definitions.

Definitions written from the words of the claims, for comparison with the
embedded source functions. -/

/-- The reproducibility pass condition exactly as claim C6 states it:
`cv = stdev(trials)/mean(trials) < 0.3` and
`mean(trials) ≥ min_improvement_percentage · 0.8` (the `cv` comparison is
carried on squares: with a positive mean, `stdev/mean < 3/10` is
`var < ((3/10)·mean)²`; a non-positive mean makes `cv` infinite and fails). -/
def specReproduciblePred (cfg : ValidationConfig) (trials : List ℚ) : Prop :=
  0 < listMean trials ∧
    sampleVar trials < ((3 / 10) * listMean trials) ^ 2 ∧
    cfg.min_improvement_percentage * (4 / 5) ≤ listMean trials

/-- The status breakpoints exactly as claim C7 states them: strict
comparisons, so a score of exactly 0.8 maps to GOOD. -/
def claimStatusStrict (s : ℚ) : Health :=
  if 4 / 5 < s then Health.EXCELLENT
  else if 3 / 5 < s then Health.GOOD
  else if 2 / 5 < s then Health.FAIR
  else Health.POOR

/-- The breakpoints as the code applies them (inclusive `>=`): the amended
mapping, under which a score of exactly 0.8 maps to EXCELLENT. -/
def statusInclusive (s : ℚ) : Health :=
  if 4 / 5 ≤ s then Health.EXCELLENT
  else if 3 / 5 ≤ s then Health.GOOD
  else if 2 / 5 ≤ s then Health.FAIR
  else Health.POOR

/-- The amended overall-score formula of claim C7: weighted combination
0.4/0.4/0.2 of the category means over the truthy (present and non-zero)
per-agent averages, with defaults 0, 1, 0 when a category has no data and
synergy normalized by 100. -/
def amendedOverallScore (ms : List AgentMetrics) : ℚ :=
  (if (truthyVals (ms.map AgentMetrics.performance)).isEmpty then 0
    else listMean (truthyVals (ms.map AgentMetrics.performance))) * (2 / 5) +
  (if (truthyVals (ms.map AgentMetrics.security)).isEmpty then 1
    else listMean (truthyVals (ms.map AgentMetrics.security))) * (2 / 5) +
  (if ((truthyVals (ms.map AgentMetrics.synergy)).map (fun q => q / 100)).isEmpty then 0
    else listMean ((truthyVals (ms.map AgentMetrics.synergy)).map (fun q => q / 100))) * (1 / 5)

/-! Helper lemmas. -/

/-- When all five criteria pass, the weighted confidence score is exactly 1
(the weights 0.3, 0.25, 0.2, 0.15, 0.1 sum to 1). -/
theorem confidenceScore_eq_one_of_all (r : CriteriaResults)
    (h : allCriteriaPassed r = true) : confidenceScore r = 1 := by
  unfold allCriteriaPassed at h
  simp only [Bool.and_eq_true] at h
  obtain ⟨⟨⟨⟨h1, h2⟩, h3⟩, h4⟩, h5⟩ := h
  unfold confidenceScore
  simp only [h1, h2, h3, h4, h5, if_true, List.map_cons, List.map_nil,
    List.sum_cons, List.sum_nil]
  norm_num

/-- A list with a non-empty fallback on emptiness is never empty. -/
theorem fallback_ne_nil (l d : List String) (hd : d ≠ []) :
    (if l.isEmpty then d else l) ≠ [] := by
  by_cases h : l.isEmpty = true
  · rw [if_pos h]
    exact hd
  · rw [if_neg h]
    intro hc
    exact h (by rw [hc]; rfl)

/-- Fact: `_generate_recommendations` never returns an empty list: the approval
message is the fallback. -/
theorem generateRecommendations_ne_nil (r : CriteriaResults) :
    generateRecommendations r ≠ [] := by
  unfold generateRecommendations
  exact fallback_ne_nil _ _ (List.cons_ne_nil _ _)

/-- Sum of a list whose members lie in `[lo, hi]` is between `n·lo` and `n·hi`. -/
theorem listSum_bounds {l : List ℚ} {lo hi : ℚ}
    (h : ∀ x ∈ l, lo ≤ x ∧ x ≤ hi) :
    (l.length : ℚ) * lo ≤ l.sum ∧ l.sum ≤ (l.length : ℚ) * hi := by
  induction l with
  | nil => simp
  | cons a t ih =>
    have ha := h a (List.mem_cons_self a t)
    have ht := ih fun x hx => h x (List.mem_cons_of_mem a hx)
    simp only [List.sum_cons, List.length_cons]
    push_cast
    constructor <;> nlinarith [ha.1, ha.2, ht.1, ht.2]

/-- Mean of a non-empty list whose members lie in `[lo, hi]` lies in `[lo, hi]`. -/
theorem listMean_bounds {l : List ℚ} {lo hi : ℚ} (hne : l ≠ [])
    (h : ∀ x ∈ l, lo ≤ x ∧ x ≤ hi) : lo ≤ listMean l ∧ listMean l ≤ hi := by
  have hlen : (0 : ℚ) < l.length := by
    have := List.length_pos.mpr hne
    exact_mod_cast this
  obtain ⟨h1, h2⟩ := listSum_bounds h
  unfold listMean
  constructor
  · rw [le_div_iff₀ hlen]
    nlinarith
  · rw [div_le_iff₀ hlen]
    nlinarith

/-- The truthiness default pattern of `_analyze_health_indicators`:
`mean(scores) if scores else default`, bounded when members and default are. -/
theorem defaultedMean_bounds (l : List ℚ) (d lo hi : ℚ)
    (hd : lo ≤ d ∧ d ≤ hi) (h : ∀ x ∈ l, lo ≤ x ∧ x ≤ hi) :
    lo ≤ (if l.isEmpty then d else listMean l) ∧
      (if l.isEmpty then d else listMean l) ≤ hi := by
  cases l with
  | nil => simpa using hd
  | cons a t =>
    rw [List.isEmpty_cons]
    simp only [if_neg (by simp : ¬ false = true)]
    exact listMean_bounds (by simp) h

/-- Every member of `truthyVals l` occurs in `l`. -/
theorem truthyVals_mem {l : List (Option ℚ)} {x : ℚ}
    (hx : x ∈ truthyVals l) : some x ∈ l := by
  induction l with
  | nil => cases hx
  | cons a t ih =>
    cases a with
    | none =>
      simp only [truthyVals] at hx
      exact List.mem_cons_of_mem _ (ih hx)
    | some q =>
      simp only [truthyVals] at hx
      by_cases hq : q = 0
      · rw [if_pos hq] at hx
        exact List.mem_cons_of_mem _ (ih hx)
      · rw [if_neg hq] at hx
        rcases List.mem_cons.mp hx with h | h
        · exact h ▸ List.mem_cons_self _ _
        · exact List.mem_cons_of_mem _ (ih h)

/-! Claim theorems. -/

/-- Claim C4: for every improvement claim with numeric fields, the
practical-significance (magnitude) criterion passes iff
`claimed_improvement_pct ≥ min_improvement_percentage` AND
`candidate > baseline` AND `|candidate − baseline| ≥ 0.05`; moreover,
holding the other two conditions, the criterion passes exactly when the
percentage reaches the threshold, passing at equality. -/
theorem magnitude_criterion_iff_and_flips_at_threshold
    (cfg : ValidationConfig) (oq nq pq : ℚ) :
    ∃ r, practicalSignificance cfg
        (.dict ⟨.num oq, .num nq, .num pq⟩) = Except.ok r ∧
      (r.passed = true ↔
        (cfg.min_improvement_percentage ≤ pq ∧ oq < nq ∧
          (1 / 20 : ℚ) ≤ |nq - oq|)) ∧
      (oq < nq → (1 / 20 : ℚ) ≤ |nq - oq| →
        ((r.passed = true ↔ cfg.min_improvement_percentage ≤ pq) ∧
          (pq = cfg.min_improvement_percentage → r.passed = true))) := by
  refine ⟨_, rfl, ?_, ?_⟩
  · simp [Bool.and_eq_true, decide_eq_true_eq, and_assoc]
  · intro h1 h2
    constructor
    · simp only [Bool.and_eq_true, decide_eq_true_eq]
      constructor
      · rintro ⟨⟨hm, -⟩, -⟩
        exact hm
      · intro hm
        exact ⟨⟨hm, h1⟩, h2⟩
    · intro hpq
      simp only [Bool.and_eq_true, decide_eq_true_eq]
      exact ⟨⟨le_of_eq hpq.symm, h1⟩, h2⟩

/-- Witness for C4: at baseline 0.65, candidate 0.78 and a claimed
improvement of exactly the default 20.0 threshold, the criterion passes. -/
theorem magnitude_criterion_witness :
    ∃ r, practicalSignificance defaultValidationConfig
        (.dict ⟨.num (13 / 20), .num (39 / 50), .num 20⟩) = Except.ok r ∧
      r.passed = true := by
  obtain ⟨r, hr, -, h3⟩ :=
    magnitude_criterion_iff_and_flips_at_threshold defaultValidationConfig
      (13 / 20) (39 / 50) 20
  exact ⟨r, hr,
    (h3 (by norm_num) (by rw [abs_of_pos (by norm_num)]; norm_num)).2
      (by norm_num [defaultValidationConfig])⟩

/-- Claim C9: below the configured minimum sample size, the
statistical-significance criterion returns a failed result carrying the
insufficient-sample reason and the sample size, as a value (no exception
reaches `validate_improvement`). -/
theorem statistical_insufficient_sample
    (cfg : ValidationConfig) (history : List ℚ) (inp : ImprovementInput)
    (h : history.length < cfg.min_sample_size) :
    statisticalSignificance cfg history inp =
      { passed := false
        reason := some ("Amostra insuficiente: " ++ toString history.length ++
          " < " ++ toString cfg.min_sample_size)
        sample_size := some history.length
        error := none } := by
  unfold statisticalSignificance
  rw [if_pos h]

/-- Witness for C9: an empty history is below the default minimum of 5 and
yields the failed insufficient-sample result. -/
theorem statistical_insufficient_sample_witness :
    statisticalSignificance defaultValidationConfig [] ImprovementInput.notDict =
      { passed := false
        reason := some ("Amostra insuficiente: " ++ toString (List.length ([] : List ℚ)) ++
          " < " ++ toString defaultValidationConfig.min_sample_size)
        sample_size := some (List.length ([] : List ℚ))
        error := none } :=
  statistical_insufficient_sample defaultValidationConfig [] ImprovementInput.notDict
    (by norm_num [defaultValidationConfig])

/-- Claim C10: whenever the body of the consistency criterion raises, the
`except` handler returns the criterion as passed, so an internal failure of
the consistency check cannot by itself reject a claim. -/
theorem consistency_exception_passes
    (pat : Option ImprovementPattern) (inp : ImprovementInput) (e : String)
    (h : consistencyBody pat inp = Except.error e) :
    (consistencyCheck pat inp).passed = true := by
  unfold consistencyCheck
  rw [h]

/-- Witness for C10: with a pattern present and a non-numeric stored
improvement percentage, the range comparison raises `TypeError` and the
criterion still passes. -/
theorem consistency_exception_passes_witness :
    (consistencyCheck (some ⟨0, 100, 10, Trend.stable⟩)
      (.dict ⟨.num 0, .num 0, .pyNone⟩)).passed = true :=
  consistency_exception_passes (some ⟨0, 100, 10, Trend.stable⟩)
    (.dict ⟨.num 0, .num 0, .pyNone⟩) "TypeError" rfl

/-- Counterexample to claim C5: a sample far older than the configured
retention period is still in `metrics_history` after a subsequent record on
the same series (the code performs no retention pruning and exposes no prune
operation). -/
theorem retention_claim_counterexample :
    (⟨"agent-a", "performance", 1 / 2, 0⟩ : MetricSample) ∈
      (collect_performance_metric ⟨[⟨"agent-a", "performance", 1 / 2, 0⟩]⟩
        ⟨"agent-a", "performance", 3 / 5, 5184000⟩).2.metrics_history ∧
    defaultMetricsConfig.metrics_retention_days * 86400 <
      (⟨"agent-a", "performance", 3 / 5, 5184000⟩ : MetricSample).timestamp -
        (⟨"agent-a", "performance", 1 / 2, 0⟩ : MetricSample).timestamp := by
  constructor
  · simp [collect_performance_metric]
  · norm_num [defaultMetricsConfig]

/-- Claim C5 amended: `collect_performance_metric` appends the new sample and
retains every previously recorded sample regardless of age; the retention
setting is never consulted and no prune operation exists. -/
theorem collect_metric_appends_and_never_drops
    (st : MetricsState) (s : MetricSample) :
    (collect_performance_metric st s).2.metrics_history =
      st.metrics_history ++ [s] ∧
    (collect_performance_metric st s).1 = true :=
  ⟨rfl, rfl⟩

/-- Counterexample to claim C8: a call to `validate_improvement` that hits
the internal exception path (here: a non-dict improvement argument) returns
the error verdict and appends nothing to the validation history. -/
theorem history_append_claim_counterexample :
    (validate_improvement defaultValidationConfig ⟨[], [], none⟩ ⟨[]⟩
      ImprovementInput.notDict).1 = Verdict.failure "AttributeError" ∧
    (validate_improvement defaultValidationConfig ⟨[], [], none⟩ ⟨[]⟩
      ImprovementInput.notDict).2.validation_history = [] := by
  constructor <;>
    norm_num [validate_improvement, runCriteria, statisticalSignificance,
      practicalSignificance, pyGet, asNum, defaultValidationConfig,
      Except.bind, bind, Except.pure, pure]

/-- Claim C8 amended: a call that completes the normal path appends exactly
its own verdict to the validation history; a call on the exception path
appends nothing; prior entries are never mutated or removed (the history
 is only ever extended on the right). -/
theorem validation_history_append_only
    (cfg : ValidationConfig) (ctx : ValidationCtx) (st : ValidationState)
    (inp : ImprovementInput) :
    (validate_improvement cfg ctx st inp).2.validation_history =
      st.validation_history ++
        (match (validate_improvement cfg ctx st inp).1 with
          | Verdict.normal _ => [(validate_improvement cfg ctx st inp).1]
          | Verdict.failure _ => []) := by
  unfold validate_improvement
  cases hr : runCriteria cfg ctx inp <;> simp

/-- Claim C1: on every request that completes without an internal exception
(the verdict is the normal dict), the approved flag `overall_passed` is true
iff all five criteria passed AND the weighted confidence score is at least
0.8; in particular no all-criteria-passed claim with confidence below 0.8 is
approved (all criteria passing forces the confidence score to 1). -/
theorem approved_iff_all_passed_and_confident
    (cfg : ValidationConfig) (ctx : ValidationCtx) (st : ValidationState)
    (inp : ImprovementInput) (nv : NormalVerdict)
    (h : (validate_improvement cfg ctx st inp).1 = Verdict.normal nv) :
    (nv.overall_passed = true ↔
      (allCriteriaPassed nv.results = true ∧ 4 / 5 ≤ nv.confidence_score)) ∧
    (allCriteriaPassed nv.results = true ∧ nv.confidence_score < 4 / 5 →
      nv.overall_passed = false) := by
  unfold validate_improvement at h
  cases hr : runCriteria cfg ctx inp with
  | error e =>
    rw [hr] at h
    cases h
  | ok results =>
    rw [hr] at h
    simp only at h
    injection h with h'
    subst h'
    refine ⟨⟨fun hp => ⟨hp, ?_⟩, fun hx => hx.1⟩, ?_⟩
    · rw [confidenceScore_eq_one_of_all _ hp]
      norm_num
    · rintro ⟨ha, hlt⟩
      rw [confidenceScore_eq_one_of_all _ ha] at hlt
      norm_num at hlt

/-- Witness for C1: a concrete completed request (history of five equal
samples takes the caught zero-variance path inside the statistical
criterion) produces a normal verdict, and the equivalence holds there. -/
theorem approved_iff_witness :
    ∃ nv, (validate_improvement defaultValidationConfig
        ⟨[1 / 2, 1 / 2, 1 / 2, 1 / 2, 1 / 2], [], none⟩ ⟨[]⟩
        (.dict ⟨.num (13 / 20), .num (39 / 50), .num 20⟩)).1 =
          Verdict.normal nv ∧
      (nv.overall_passed = true ↔
        (allCriteriaPassed nv.results = true ∧ 4 / 5 ≤ nv.confidence_score)) := by
  have h : (validate_improvement defaultValidationConfig
      ⟨[1 / 2, 1 / 2, 1 / 2, 1 / 2, 1 / 2], [], none⟩ ⟨[]⟩
      (.dict ⟨.num (13 / 20), .num (39 / 50), .num 20⟩)).1 =
    Verdict.normal
      { results :=
          { statistical :=
              { passed := false, reason := none, sample_size := none,
                error := some "ZeroDivisionError" },
            practical := { passed := true, error := none },
            reproducibility := { passed := true, error := none },
            consistency := { passed := true, error := none },
            bounds := { passed := true, error := none } },
        overall_passed := false,
        confidence_score := 7 / 10,
        recommendations :=
          ["Aumentar tamanho da amostra para melhor significância estatística"] } := by
    norm_num [validate_improvement, runCriteria, statisticalSignificance,
      practicalSignificance, reproducibilityCheck, reproducibilityBody,
      consistencyCheck, consistencyBody, boundsCheck, allCriteriaPassed,
      confidenceScore, generateRecommendations, pyGet, asNum,
      defaultValidationConfig, listMean, sampleVar,
      Except.bind, bind, Except.pure, pure]
    rw [show |(13 : ℚ) / 100| = 13 / 100 from
      abs_of_pos (by norm_num)]
    norm_num
  exact ⟨_, h,
    (approved_iff_all_passed_and_confident defaultValidationConfig
      ⟨[1 / 2, 1 / 2, 1 / 2, 1 / 2, 1 / 2], [], none⟩ ⟨[]⟩
      (.dict ⟨.num (13 / 20), .num (39 / 50), .num 20⟩) _ h).1⟩

/-- Claim C2: `validate_improvement` is total on every input (including
non-dict improvement data and data that makes a criterion evaluator raise):
it always returns a verdict value whose approved flag is false on the
failure path, and whose rationale (recommendations, or the exception text)
is never empty. -/
theorem validate_always_returns_verdict
    (cfg : ValidationConfig) (ctx : ValidationCtx) (st : ValidationState)
    (inp : ImprovementInput) :
    (∀ e, (validate_improvement cfg ctx st inp).1 = Verdict.failure e →
      (validate_improvement cfg ctx st inp).1.overall_passed = false) ∧
    (validate_improvement cfg ctx st inp).1.rationale ≠ [] := by
  constructor
  · intro e he
    rw [he]
    rfl
  · unfold validate_improvement
    cases hr : runCriteria cfg ctx inp with
    | error e => simp [Verdict.rationale]
    | ok results =>
      simp only [Verdict.rationale]
      exact generateRecommendations_ne_nil results

/-- Witness for C2: on a non-dict input the call returns the error verdict,
not approved, with a non-empty rationale. -/
theorem validate_always_returns_verdict_witness :
    (validate_improvement defaultValidationConfig ⟨[], [], none⟩ ⟨[]⟩
      ImprovementInput.notDict).1.overall_passed = false ∧
    (validate_improvement defaultValidationConfig ⟨[], [], none⟩ ⟨[]⟩
      ImprovementInput.notDict).1.rationale ≠ [] := by
  have h := validate_always_returns_verdict defaultValidationConfig
    ⟨[], [], none⟩ ⟨[]⟩ ImprovementInput.notDict
  refine ⟨h.1 "AttributeError" ?_, h.2⟩
  norm_num [validate_improvement, runCriteria, statisticalSignificance,
    practicalSignificance, pyGet, asNum, defaultValidationConfig,
    Except.bind, bind, Except.pure, pure]

/-- Counterexample to claim C6: with two prior improvements of 10% and 20%
and a current claim of 15%, the trials have mean 15 and coefficient of
variation 1/3; the code passes the criterion (cv < 0.5) while the claimed
condition (cv < 0.3 and mean ≥ 16) fails. -/
theorem reproducibility_claim_counterexample :
    (reproducibilityCheck [10, 20]
      (.dict ⟨.num 0, .num 0, .num 15⟩)).passed = true ∧
    ¬ specReproduciblePred defaultValidationConfig ([10, 20] ++ [15]) := by
  constructor
  · norm_num [reproducibilityCheck, reproducibilityBody, pyGet, asNum,
      sampleVar, listMean, Except.bind, bind, Except.pure, pure]
  · norm_num [specReproduciblePred, sampleVar, listMean, defaultValidationConfig]

/-- Claim C6 amended: with at least two prior recorded improvements and a
numeric current percentage, the reproducibility criterion passes iff the
mean of the trials (priors plus current) is positive and the coefficient of
variation `stdev/mean` is strictly below 0.5 (carried on squares); no mean
threshold is applied. -/
theorem reproducibility_iff_cv_below_half
    (recent : List ℚ) (ov nv : PyVal) (cq : ℚ)
    (h : 2 ≤ recent.length) :
    ((reproducibilityCheck recent (.dict ⟨ov, nv, .num cq⟩)).passed = true ↔
      (0 < listMean (recent ++ [cq]) ∧
        sampleVar (recent ++ [cq]) < (listMean (recent ++ [cq]) / 2) ^ 2)) := by
  have hlen : ¬ recent.length < 2 := by omega
  have hlen2 : 1 < (recent ++ [cq]).length := by
    simp only [List.length_append, List.length_singleton]
    omega
  unfold reproducibilityCheck reproducibilityBody
  rw [if_neg hlen]
  simp only [pyGet, asNum, Except.bind, bind, Except.pure, pure,
    if_pos hlen2, Bool.and_eq_true, decide_eq_true_eq]

/-- Witness for C6: the amended equivalence evaluated at priors 10, 20 and
current 15 — the criterion passes because cv = 1/3 < 1/2. -/
theorem reproducibility_iff_witness :
    (reproducibilityCheck [10, 20]
      (.dict ⟨.num 1, .num 1, .num 15⟩)).passed = true := by
  refine (reproducibility_iff_cv_below_half [10, 20] (.num 1) (.num 1) 15
    (by norm_num)).mpr ?_
  norm_num [listMean, sampleVar]

/-- Counterexample to claim C3: with one agent whose average performance is
2.0 (an extreme input), the health score is 1.2, outside [0,1] — no clamp is
applied. -/
theorem health_clamp_counterexample :
    (analyzeHealthIndicators [⟨some 2, none, none⟩]).health_score = 6 / 5 ∧
    ¬ (analyzeHealthIndicators [⟨some 2, none, none⟩]).health_score ≤ 1 := by
  norm_num [analyzeHealthIndicators, truthyVals, listMean]

/-- Claim C3 amended: the health score lies in [0,1] whenever every present
per-agent average is in its normal range (performance and security in [0,1],
synergy in [0,100]); the score is a weighted combination, not clamped, so
the invariant needs the inputs in range. -/
theorem health_score_in_unit_interval
    (ms : List AgentMetrics)
    (hp : ∀ a ∈ ms, ∀ q ∈ a.performance, 0 ≤ q ∧ q ≤ 1)
    (hs : ∀ a ∈ ms, ∀ q ∈ a.security, 0 ≤ q ∧ q ≤ 1)
    (hy : ∀ a ∈ ms, ∀ q ∈ a.synergy, 0 ≤ q ∧ q ≤ 100) :
    0 ≤ (analyzeHealthIndicators ms).health_score ∧
      (analyzeHealthIndicators ms).health_score ≤ 1 := by
  have hperf : ∀ x ∈ truthyVals (ms.map AgentMetrics.performance),
      0 ≤ x ∧ x ≤ 1 := by
    intro x hx
    obtain ⟨a, ha, hax⟩ := List.mem_map.mp (truthyVals_mem hx)
    exact hp a ha x (by rw [Option.mem_def, hax])
  have hsec : ∀ x ∈ truthyVals (ms.map AgentMetrics.security),
      0 ≤ x ∧ x ≤ 1 := by
    intro x hx
    obtain ⟨a, ha, hax⟩ := List.mem_map.mp (truthyVals_mem hx)
    exact hs a ha x (by rw [Option.mem_def, hax])
  have hcol : ∀ x ∈ (truthyVals (ms.map AgentMetrics.synergy)).map
      (fun q => q / 100), 0 ≤ x ∧ x ≤ 1 := by
    intro x hx
    obtain ⟨q, hq, hqx⟩ := List.mem_map.mp hx
    obtain ⟨a, ha, hax⟩ := List.mem_map.mp (truthyVals_mem hq)
    have := hy a ha q (by rw [Option.mem_def, hax])
    subst hqx
    constructor <;> nlinarith [this.1, this.2]
  have h1 := defaultedMean_bounds
    (truthyVals (ms.map AgentMetrics.performance)) 0 0 1 (by norm_num) hperf
  have h2 := defaultedMean_bounds
    (truthyVals (ms.map AgentMetrics.security)) 1 0 1 (by norm_num) hsec
  have h3 := defaultedMean_bounds
    ((truthyVals (ms.map AgentMetrics.synergy)).map (fun q => q / 100))
    0 0 1 (by norm_num) hcol
  unfold analyzeHealthIndicators
  dsimp only
  constructor <;> nlinarith [h1.1, h1.2, h2.1, h2.2, h3.1, h3.2]

/-- Witness for C3: one agent with in-range averages (performance 0.5,
security 0.9, synergy 50) yields a health score inside [0,1]. -/
theorem health_score_in_unit_interval_witness :
    0 ≤ (analyzeHealthIndicators
        [⟨some (1 / 2), some (9 / 10), some 50⟩]).health_score ∧
      (analyzeHealthIndicators
        [⟨some (1 / 2), some (9 / 10), some 50⟩]).health_score ≤ 1 := by
  refine health_score_in_unit_interval _ ?_ ?_ ?_ <;>
  · rintro a ha q hq
    simp only [List.mem_singleton] at ha
    subst ha
    simp only [Option.mem_def, Option.some.injEq] at hq
    subst hq
    norm_num

/-- Counterexample to claim C7: with one agent at average performance 1.0
(and the security default 1.0), the overall score is exactly 0.8 and the
code reports EXCELLENT, while the strict breakpoints of the claim would report
GOOD. -/
theorem health_status_claim_counterexample :
    (analyzeHealthIndicators [⟨some 1, none, none⟩]).health_score = 4 / 5 ∧
    (analyzeHealthIndicators [⟨some 1, none, none⟩]).overall_health =
      Health.EXCELLENT ∧
    claimStatusStrict
      ((analyzeHealthIndicators [⟨some 1, none, none⟩]).health_score) =
      Health.GOOD := by
  refine ⟨?_, ?_, ?_⟩ <;>
    norm_num [analyzeHealthIndicators, truthyVals, listMean, claimStatusStrict]

/-- Claim C7 amended: the overall score is the weighted combination
0.4/0.4/0.2 of the category means over truthy (non-zero) per-agent averages
(zero scores are excluded by truthiness, defaults 0/1/0, synergy divided by
100), and the status uses inclusive breakpoints ≥0.8 EXCELLENT, ≥0.6 GOOD,
≥0.4 FAIR, else POOR — so a score of exactly 0.8 maps to EXCELLENT. -/
theorem health_status_inclusive_breakpoints (ms : List AgentMetrics) :
    (analyzeHealthIndicators ms).health_score = amendedOverallScore ms ∧
    (analyzeHealthIndicators ms).overall_health =
      statusInclusive ((analyzeHealthIndicators ms).health_score) := by
  exact ⟨rfl, rfl⟩

end SunaAlsham
